import Mathlib

/-!
Shallow embedding of the torus-edit raw-mode terminal program
(`src/main.rs`, `src/torus/terminal_handler.rs`, `src/torus/input_handler.rs`).

Terminal configurations (`struct termios`) are modelled as records of
natural-number flag words below `2 ^ 32`; an input source is modelled as the
list of bytes it will deliver, a successful one-byte read consuming the head.
Flag constants carry the x86_64-linux values used by the `libc` crate.
Fallible system calls (`tcgetattr`, `tcsetattr`) are modelled by explicit
Boolean success parameters, a failing call leaving the device state unchanged.
-/

namespace TorusEdit

/-- Value of the `libc` flag `ISIG` (generate signals from control bytes). -/
def ISIG : Nat := 1

/-- Value of the `libc` flag `ICANON` (canonical, line-buffered input). -/
def ICANON : Nat := 2

/-- Value of the `libc` flag `ECHO` (local echo of typed bytes). -/
def ECHO : Nat := 8

/-- Value of the `libc` flag `ICRNL` (translate carriage return to newline on input). -/
def ICRNL : Nat := 256

/-- Value of the `libc` flag `IEXTEN` (extended input processing). -/
def IEXTEN : Nat := 32768

/-- Index `VTIME` into the `c_cc` array (inter-byte read timeout). -/
def VTIME : Nat := 5

/-- Index `VMIN` into the `c_cc` array (minimum bytes per read). -/
def VMIN : Nat := 6

/-- Model of `libc::termios`: the four flag words and the control-character
array `c_cc` (`VTIME` at index 5, `VMIN` at index 6). -/
structure Termios where
  c_iflag : Nat
  c_oflag : Nat
  c_cflag : Nat
  c_lflag : Nat
  c_cc : List Nat
deriving DecidableEq

/-- Clearing a mask from a 32-bit flag word, as the Rust `flags &= !(mask)`
on `u32` does: bitwise and with the 32-bit complement of the mask. -/
def clearMask (flags mask : Nat) : Nat :=
  flags &&& (4294967295 ^^^ mask)

/-- The modified configuration computed by `RawModeGuard::enable_raw_mode` in
`src/torus/terminal_handler.rs` lines 27 to 36: starting from the current
configuration, clear `ICANON` and `ECHO` from `c_lflag`, then clear `ECHO`,
`ICANON`, `ISIG` and `IEXTEN` from `c_lflag`, clear `ICRNL` from `c_iflag`,
and set `c_cc[VMIN] := 1` and `c_cc[VTIME] := 0`. -/
def raw_transform (t : Termios) : Termios :=
  { t with
    c_lflag := clearMask (clearMask t.c_lflag (ICANON ||| ECHO))
        (ECHO ||| ICANON ||| ISIG ||| IEXTEN),
    c_iflag := clearMask t.c_iflag ICRNL,
    c_cc := (t.c_cc.set VMIN 1).set VTIME 0 }

/-- The modified configuration computed by the `main.rs` variant of
`RawModeGuard::enable_raw_mode` (lines 26 to 32): clear only `ICANON` and
`ECHO` from `c_lflag` and set `c_cc[VMIN] := 1`, `c_cc[VTIME] := 0`.
It touches neither `c_iflag` nor the `ISIG` and `IEXTEN` bits. -/
def raw_transform_main (t : Termios) : Termios :=
  { t with
    c_lflag := clearMask t.c_lflag (ICANON ||| ECHO),
    c_cc := (t.c_cc.set VMIN 1).set VTIME 0 }

/-- Error kinds of the mode controller, per the spec error model. -/
inductive TermError where
  | deviceQueryError
  | deviceConfigError
deriving DecidableEq

/-- Model of the Rust `RawModeGuard`: it owns the saved original
configuration, the restoration target. -/
structure RawModeGuard where
  original_termios : Termios
deriving DecidableEq

/-- Model of `RawModeGuard::enable_raw_mode` (torus variant,
`src/torus/terminal_handler.rs` lines 16 to 46).  `getOk` models whether the
`tcgetattr` call succeeds and `setOk` whether the `tcsetattr` call does; `dev`
is the device configuration before the call.  The result pairs the returned
value with the device configuration afterwards; a failing call applies
nothing, so on every error path the device component is `dev` unchanged. -/
def enable_raw_mode (getOk setOk : Bool) (dev : Termios) :
    Except TermError RawModeGuard × Termios :=
  if getOk = false then (Except.error TermError.deviceQueryError, dev)
  else if setOk = false then (Except.error TermError.deviceConfigError, dev)
  else (Except.ok { original_termios := dev }, raw_transform dev)

/-- Model of the `main.rs` variant of `RawModeGuard::enable_raw_mode`
(lines 15 to 43), identical in structure but applying `raw_transform_main`. -/
def enable_raw_mode_main (getOk setOk : Bool) (dev : Termios) :
    Except TermError RawModeGuard × Termios :=
  if getOk = false then (Except.error TermError.deviceQueryError, dev)
  else if setOk = false then (Except.error TermError.deviceConfigError, dev)
  else (Except.ok { original_termios := dev }, raw_transform_main dev)

/-- Model of `impl Drop for RawModeGuard` (`src/torus/terminal_handler.rs`
lines 51 to 63): re-apply the saved original configuration via `tcsetattr`;
`restoreOk` models that call succeeding.  On failure the error is only
reported and the device keeps its current configuration. -/
def drop_guard (restoreOk : Bool) (g : RawModeGuard) (dev : Termios) : Termios :=
  if restoreOk then g.original_termios else dev

/-- The classified keypress events of the spec data model. -/
inductive KeypressEvent where
  | Printable (b : Nat)
  | Control (b : Nat)
  | EscapeSequence (b : Nat) (b2 : Nat)
  | Other (b : Nat)
deriving DecidableEq

/-- Model of `editor_read_key` (`src/torus/input_handler.rs` lines 17 to 25):
a one-byte read returning the byte and the remaining input, failing exactly
when the read fails or delivers zero bytes (empty source), with no retry. -/
def editor_read_key : List Nat → Except Unit (Nat × List Nat)
  | [] => Except.error ()
  | b :: rest => Except.ok (b, rest)

/-- Model of `tcflush(0, TCIFLUSH)`: discards all pending unread input. -/
def tcflush_input (_pending : List Nat) : List Nat := []

/-- Model of `process_keypress` (`src/torus/input_handler.rs` lines 40 to 61).
The result carries the classification printed by the branch taken, the byte
the function returns (`Some(c)`, always the first byte read) and the input
remaining after the call.  Branch structure of the source: first byte 27
reads one follow-up byte (propagating its failure as `none`); else bytes
1 to 26 are the control branch; else bytes 32 to 122 are the printable branch,
which also runs `tcflush(TCIFLUSH)` on the input; else the other branch. -/
def process_keypress (input : List Nat) :
    Option (KeypressEvent × Nat × List Nat) :=
  match editor_read_key input with
  | Except.error _ => none
  | Except.ok (c, rest) =>
    if c = 27 then
      match editor_read_key rest with
      | Except.error _ => none
      | Except.ok (d, rest2) => some (KeypressEvent.EscapeSequence c d, c, rest2)
    else if 1 ≤ c ∧ c ≤ 26 then
      some (KeypressEvent.Control c, c, rest)
    else if 32 ≤ c ∧ c ≤ 122 then
      some (KeypressEvent.Printable c, c, tcflush_input rest)
    else
      some (KeypressEvent.Other c, c, rest)

/-- Possible outcomes of one session loop on a finite scripted input:
`quit es` means the loop broke out at the quit byte having echoed `es`
(the quit byte included, since the source echoes before the quit check);
`unwound es` means the loop ended abnormally by panic after echoing `es`;
`spins` means the loop never exits (it keeps iterating on a failing read). -/
inductive LoopResult where
  | quit (echoed : List Nat)
  | unwound (echoed : List Nat)
  | spins
deriving DecidableEq

/-- Fuel-indexed unrolling of the loop of the torus `run_app_in_raw_mode`
(`src/torus/terminal_handler.rs` lines 81 to 103).  Each iteration first runs
`stdin.read_exact` on one byte, whose value the source then discards (the
binding of `byte[0]` is commented out); if that read fails the loop just
iterates again, so an empty input spins forever.  Otherwise it calls
`process_keypress`: a `None` result hits `char_byte.unwrap()` (the guard
`Some(char_byte).is_some()` is vacuously true) and panics; a `Some` result is
echoed and compared against the quit byte 113.  Fuel equal to the input
length is exact: every iteration that recurses consumes at least two bytes,
and with zero fuel the input is necessarily empty, where the loop spins. -/
def session_loop_aux : Nat → List Nat → LoopResult
  | 0, _ => LoopResult.spins
  | _ + 1, [] => LoopResult.spins
  | fuel + 1, _discarded :: rest =>
    match process_keypress rest with
    | none => LoopResult.unwound []
    | some (_, c, rest2) =>
      if c = 113 then LoopResult.quit [c]
      else
        match session_loop_aux fuel rest2 with
        | LoopResult.quit es => LoopResult.quit (c :: es)
        | LoopResult.unwound es => LoopResult.unwound (c :: es)
        | LoopResult.spins => LoopResult.spins

/-- The loop of the torus `run_app_in_raw_mode` on a scripted input. -/
def session_loop (input : List Nat) : LoopResult :=
  session_loop_aux input.length input

/-- Model of the loop of the `main.rs` variant of `run_app_in_raw_mode`
(lines 75 to 92): read one byte, echo it, break when it is 113. -/
def session_loop_main : List Nat → LoopResult
  | [] => LoopResult.spins
  | b :: rest =>
    if b = 113 then LoopResult.quit [b]
    else
      match session_loop_main rest with
      | LoopResult.quit es => LoopResult.quit (b :: es)
      | LoopResult.unwound es => LoopResult.unwound (b :: es)
      | LoopResult.spins => LoopResult.spins

/-- Observable session actions of one execution of the program. -/
inductive Action where
  | acquire
  | echo (b : Nat)
  | release
  | enterFail
deriving DecidableEq

/-- Model of the torus `run_app_in_raw_mode` (`src/torus/terminal_handler.rs`
lines 65 to 104) as the trace of session actions of one execution.  On
acquisition failure the function returns early without a session.  The
trailing `Action.release` on both the normal-break exit and the panic exit
models the Rust guarantee that the `Drop` of the guard runs on scope exit and
during unwinding alike.  An execution whose loop never exits takes no exit
path and yields `none`. -/
def run_app_in_raw_mode (getOk setOk : Bool) (dev : Termios) (input : List Nat) :
    Option (List Action) :=
  match enable_raw_mode getOk setOk dev with
  | (Except.error _, _) => some [Action.enterFail]
  | (Except.ok _, _) =>
    match session_loop input with
    | LoopResult.quit es =>
        some (Action.acquire :: (es.map Action.echo ++ [Action.release]))
    | LoopResult.unwound es =>
        some (Action.acquire :: (es.map Action.echo ++ [Action.release]))
    | LoopResult.spins => none

/-- A sample device configuration: `c_lflag` holds ISIG, ICANON, ECHO, the
unrelated bit 16 (ECHOE) and IEXTEN; `c_iflag` holds ICRNL. -/
def sampleTermios : Termios :=
  { c_iflag := 256, c_oflag := 4, c_cflag := 191, c_lflag := 32795,
    c_cc := [0, 0, 0, 0, 0, 0, 0] }

theorem count_release_map_echo (es : List Nat) :
    (es.map Action.echo).count Action.release = 0 := by
  induction es with
  | nil => rfl
  | cons b tl ih => simp [List.count_cons, ih]

/-- Echo behaviour of the `main.rs` loop: with the quit byte 113 absent from
the prefix, the loop echoes every byte of the prefix and then the quit byte,
and its result does not depend on the bytes after the quit byte. -/
theorem session_loop_main_echoes_until_quit (pre post : List Nat)
    (hpre : 113 ∉ pre) :
    session_loop_main (pre ++ 113 :: post) = LoopResult.quit (pre ++ [113]) := by
  induction pre with
  | nil => simp [session_loop_main]
  | cons b tl ih =>
    have hb : b ≠ 113 := fun h => hpre (by simp [h])
    have htl : 113 ∉ tl := fun h => hpre (by simp [h])
    simp [session_loop_main, hb, ih htl]

/-- Claim C1 (confirmed): for every terminal configuration captured at
session entry, `enable_raw_mode` followed by dropping the guard re-applies
exactly that configuration, so the device configuration after release equals
the pre-session configuration. -/
theorem enter_then_release_round_trip (dev : Termios) (g : RawModeGuard)
    (dev2 : Termios)
    (h : enable_raw_mode true true dev = (Except.ok g, dev2)) :
    drop_guard true g dev2 = dev := by
  simp only [enable_raw_mode, if_neg, Bool.true_eq_false, ite_false] at h
  have hg : g = { original_termios := dev } := by
    have := congrArg Prod.fst h
    simpa using this.symm
  simp [drop_guard, hg]

/-- Witness for C1 at the sample configuration. -/
theorem enter_then_release_round_trip_witness :
    drop_guard true { original_termios := sampleTermios }
      (raw_transform sampleTermios) = sampleTermios :=
  enter_then_release_round_trip sampleTermios
    { original_termios := sampleTermios } (raw_transform sampleTermios) rfl

/-- Claim C2 (confirmed): on every exit path of the torus
`run_app_in_raw_mode` — normal loop exit at the quit byte, panic partway
through, or early return on acquisition failure — the release step appears
exactly once in the trace when a session was successfully created, and never
when creation failed. -/
theorem session_release_exactly_once (getOk setOk : Bool) (dev : Termios)
    (input : List Nat) (tr : List Action)
    (h : run_app_in_raw_mode getOk setOk dev input = some tr) :
    (getOk = true → setOk = true → tr.count Action.release = 1) ∧
    ((getOk = false ∨ setOk = false) → tr.count Action.release = 0) := by
  cases getOk with
  | false =>
    simp [run_app_in_raw_mode, enable_raw_mode] at h
    subst h
    simp [List.count_cons]
  | true =>
    cases setOk with
    | false =>
      simp [run_app_in_raw_mode, enable_raw_mode] at h
      subst h
      simp [List.count_cons]
    | true =>
      constructor
      · intro _ _
        cases hres : session_loop input with
        | quit es =>
          simp [run_app_in_raw_mode, enable_raw_mode, hres] at h
          subst h
          simp [List.count_cons, List.count_append, count_release_map_echo]
        | unwound es =>
          simp [run_app_in_raw_mode, enable_raw_mode, hres] at h
          subst h
          simp [List.count_cons, List.count_append, count_release_map_echo]
        | spins =>
          simp [run_app_in_raw_mode, enable_raw_mode, hres] at h
      · intro hor
        rcases hor with hor | hor <;> exact absurd hor (by simp)

/-- Witness for C2: a concrete run that enters raw mode, echoes the quit
byte and releases once. -/
theorem session_release_exactly_once_witness :
    ([Action.acquire, Action.echo 113, Action.release].count Action.release
      = 1) :=
  (session_release_exactly_once true true sampleTermios [97, 113]
      [Action.acquire, Action.echo 113, Action.release] rfl).1 rfl rfl

/-- Claim C3 (code_bug): evaluated on the sample configuration (`c_lflag`
32795 holding ISIG, ICANON, ECHO, bit 16 and IEXTEN; `c_iflag` 256 holding
ICRNL), the `main.rs` variant leaves ISIG and IEXTEN set in `c_lflag` and
ICRNL set in `c_iflag` (result 32785 and 256), so signal generation,
extended input processing and CR-to-NL translation stay enabled there,
against the claim that every variant disables them.  The torus variant does
clear them all (result 16 and 0); both variants preserve the unrelated bit 16
(masks atop the current flags) and set `c_cc[VMIN] = 1`, `c_cc[VTIME] = 0`. -/
theorem raw_transform_variant_evaluation :
    (raw_transform_main sampleTermios).c_lflag = 32785 ∧
    (raw_transform_main sampleTermios).c_iflag = 256 ∧
    (raw_transform sampleTermios).c_lflag = 16 ∧
    (raw_transform sampleTermios).c_iflag = 0 ∧
    (raw_transform sampleTermios).c_cc = [0, 0, 0, 0, 0, 0, 1] ∧
    (raw_transform_main sampleTermios).c_cc = [0, 0, 0, 0, 0, 0, 1] := by
  decide

/-- Claim C4 (confirmed): in both `enable_raw_mode` variants, when applying
the modified configuration fails, the operation returns
`DeviceConfigError`, no guard is created, and the device configuration is
returned unmodified. -/
theorem enter_raw_mode_failure_atomic (dev : Termios) :
    enable_raw_mode true false dev
      = (Except.error TermError.deviceConfigError, dev) ∧
    enable_raw_mode_main true false dev
      = (Except.error TermError.deviceConfigError, dev) :=
  ⟨rfl, rfl⟩

/-- Claim C5 (code_bug): the decoder classifies byte 123 (and equally 126)
as `Other`, because its printable upper bound is 122, while the claim puts
the whole range 32 to 126 in `Printable`.  Bytes 3, 65 and 200 classify as
the claim says. -/
theorem printable_upper_bound_evaluation :
    process_keypress [123] = some (KeypressEvent.Other 123, 123, []) ∧
    process_keypress [126] = some (KeypressEvent.Other 126, 126, []) ∧
    process_keypress [3] = some (KeypressEvent.Control 3, 3, []) ∧
    process_keypress [65] = some (KeypressEvent.Printable 65, 65, []) ∧
    process_keypress [200] = some (KeypressEvent.Other 200, 200, []) := by
  decide

/-- Claim C6 (confirmed): when the first byte read is 27 the decoder reads
exactly one further byte; on success it classifies the keystroke as the
escape sequence of the two bytes, and when no further byte is available the
outcome is deterministically the error result `none` (the truncated-sequence
error), never a `Control 27` event. -/
theorem escape_sequence_decoding :
    (∀ b2 rest, process_keypress (27 :: b2 :: rest)
      = some (KeypressEvent.EscapeSequence 27 b2, 27, rest)) ∧
    process_keypress [27] = none :=
  ⟨fun _ _ => rfl, rfl⟩

/-- Counterexample to claim C7 as stated: on input bytes 97 then 98 the call
reads the single byte 97, yet the remaining input afterwards is empty rather
than the unread suffix containing 98 — the printable branch flushed the
source, a side effect beyond consuming the bytes read. -/
theorem decoder_flush_counterexample :
    process_keypress [97, 98] = some (KeypressEvent.Printable 97, 97, []) ∧
    ([] : List Nat) ≠ [98] := by
  decide

/-- Claim C7 (corrected): the decoder holds no state between calls and
consumes exactly the bytes it reads — one byte on the control and other
branches, two on the escape branch — except on the printable branch
(bytes 32 to 122), where it additionally flushes the input source,
discarding all pending unread bytes. -/
theorem decoder_frame_amended :
    (∀ c rest, 1 ≤ c → c ≤ 26 → process_keypress (c :: rest)
      = some (KeypressEvent.Control c, c, rest)) ∧
    (∀ b2 rest, process_keypress (27 :: b2 :: rest)
      = some (KeypressEvent.EscapeSequence 27 b2, 27, rest)) ∧
    (∀ c rest, 32 ≤ c → c ≤ 122 → process_keypress (c :: rest)
      = some (KeypressEvent.Printable c, c, [])) ∧
    (∀ c rest, 123 ≤ c → process_keypress (c :: rest)
      = some (KeypressEvent.Other c, c, rest)) ∧
    (∀ rest, process_keypress (0 :: rest)
      = some (KeypressEvent.Other 0, 0, rest)) ∧
    (∀ c rest, 28 ≤ c → c ≤ 31 → process_keypress (c :: rest)
      = some (KeypressEvent.Other c, c, rest)) := by
  refine ⟨fun c rest h1 h2 => ?_, fun b2 rest => rfl,
    fun c rest h1 h2 => ?_, fun c rest h1 => ?_, fun rest => rfl,
    fun c rest h1 h2 => ?_⟩
  · simp only [process_keypress, editor_read_key]
    rw [if_neg (by omega), if_pos ⟨h1, h2⟩]
  · simp only [process_keypress, editor_read_key]
    rw [if_neg (by omega), if_neg (by omega), if_pos ⟨h1, h2⟩]
    rfl
  · simp only [process_keypress, editor_read_key]
    rw [if_neg (by omega), if_neg (by omega), if_neg (by omega)]
  · simp only [process_keypress, editor_read_key]
    rw [if_neg (by omega), if_neg (by omega), if_neg (by omega)]

/-- Witness for the amended C7 at concrete inputs: a control byte keeps the
unread suffix, a printable byte discards it. -/
theorem decoder_frame_amended_witness :
    process_keypress [3, 5] = some (KeypressEvent.Control 3, 3, [5]) ∧
    process_keypress [97, 98] = some (KeypressEvent.Printable 97, 97, []) :=
  ⟨decoder_frame_amended.1 3 [5] (by decide) (by decide),
   decoder_frame_amended.2.2.1 97 [98] (by decide) (by decide)⟩

/-- Counterexample to claim C8 as stated: on an exhausted input the leading
read of the torus session loop fails, and the loop keeps iterating forever
(`LoopResult.spins`) instead of ending. -/
theorem session_loop_spins_on_empty_input :
    session_loop [] = LoopResult.spins := rfl

/-- Claim C8 (corrected): a failing or zero-byte read makes
`editor_read_key` fail and `process_keypress` propagate the failure as
`none` with no internal retry; when the failing read is the one inside the
decoder the loop ends — abnormally, by the unwrap panic on `none` — but when
the failing read is the leading `read_exact` of the loop itself, the loop
continues to iterate instead of ending. -/
theorem read_error_propagation_amended :
    editor_read_key [] = Except.error () ∧
    process_keypress [] = none ∧
    (∀ b : Nat, session_loop [b] = LoopResult.unwound []) ∧
    session_loop [] = LoopResult.spins :=
  ⟨rfl, rfl, fun _ => rfl, rfl⟩

/-- Claim C9 (code_bug): evaluated on the scripted input 97 then 113
("aq"), the torus session loop quits but echoes only the quit byte 113 —
byte 97 was consumed and discarded by the leading `read_exact`, never
echoed; and on the single-byte input 113 ("q") the loop panics on unwrap
instead of quitting, since the quit byte itself is swallowed by the leading
read and the decoder then finds no byte.  The `main.rs` loop, by contrast,
satisfies the claim (see `session_loop_main_echoes_until_quit`). -/
theorem session_loop_quit_evaluation :
    session_loop [97, 113] = LoopResult.quit [113] ∧
    session_loop [113] = LoopResult.unwound [] := by
  decide

/-- Claim C10 (confirmed): whenever `process_keypress` returns a byte, that
byte is the first byte read from the source in that call — in the escape
case the follow-up byte is consumed but the returned byte is still 27. -/
theorem decoder_returns_first_byte (input : List Nat) (ev : KeypressEvent)
    (b : Nat) (rest : List Nat)
    (h : process_keypress input = some (ev, b, rest)) :
    input.head? = some b := by
  cases input with
  | nil => simp [process_keypress, editor_read_key] at h
  | cons c tl =>
    simp only [process_keypress, editor_read_key, List.head?]
    simp only [process_keypress, editor_read_key] at h
    by_cases h27 : c = 27
    · subst h27
      cases tl with
      | nil => simp at h
      | cons d tl2 =>
        simp only [if_pos rfl] at h
        have := (Option.some.injEq _ _).mp h
        simp_all
    · rw [if_neg h27] at h
      by_cases hc : 1 ≤ c ∧ c ≤ 26
      · rw [if_pos hc] at h
        simp_all
      · rw [if_neg hc] at h
        by_cases hp : 32 ≤ c ∧ c ≤ 122
        · rw [if_pos hp] at h
          simp_all
        · rw [if_neg hp] at h
          simp_all

/-- Witness for C10 at the escape input 27 then 97. -/
theorem decoder_returns_first_byte_witness :
    process_keypress [27, 97]
      = some (KeypressEvent.EscapeSequence 27 97, 27, []) ∧
    ([27, 97] : List Nat).head? = some 27 :=
  ⟨rfl, decoder_returns_first_byte [27, 97]
    (KeypressEvent.EscapeSequence 27 97) 27 [] rfl⟩

end TorusEdit
